import Mathlib

/-!
Verification of the `json-simple-filter` crate (src/lib.rs): a filter-expression
parser (`parse`) and a conjunctive predicate evaluator (`apply`) over JSON values.

Modelling notes:
* `serde_json::Value` is modelled by the inductive `Value` below; JSON numbers are
  modelled as `Int` restricted in practice to the i64 range (the crate only ever
  reads numbers through `as_i64`, and the parser only produces i64 literals).
* i64 arithmetic (`v * mult`) is modelled as `Int` multiplication; overflow does
  not arise in any property considered here.
* A Rust panic (out-of-bounds slice index in `parse`) is modelled by `none` in the
  outer layer of `parse : String → Option (Option (List Filter))`: the outer
  `Option` is panic/no-panic, the inner `Option` is the Rust `Option` return type.
* Rust's `str::split`, `split_whitespace`, `trim_start_matches`, `trim_matches`
  are re-implemented on `List Char` by structural recursion so that every
  definition evaluates inside the kernel. `split_whitespace` splits on
  `char::is_whitespace`, i.e. the Unicode White_Space property, modelled
  exactly by `isWhitespaceRust` below.
-/

namespace JsonFilter

/-- The quote character, `\x27`, trimmed from value tokens by the parser. -/
def quoteChar : Char := Char.ofNat 39

/-- Model of `serde_json::Value` (numbers as i64-range integers). -/
inductive Value where
  | null : Value
  | bool (b : Bool) : Value
  | num (n : Int) : Value
  | str (s : String) : Value
  | arr (elems : List Value) : Value
  | obj (entries : List (String × Value)) : Value

/-- `Value::get(key)`: field lookup, `None` on non-objects (src/lib.rs use sites). -/
def Value.get (v : Value) (key : String) : Option Value :=
  match v with
  | Value.obj entries => List.lookup key entries
  | _ => none

/-- `Value::as_str`. -/
def Value.as_str : Value → Option String
  | Value.str s => some s
  | _ => none

/-- `Value::as_i64`. -/
def Value.as_i64 : Value → Option Int
  | Value.num n => some n
  | _ => none

/-- The `Filter` struct of src/lib.rs (lines 20-27). -/
structure Filter where
  field : Option String
  operator : String
  value : Option Value
  value_field : Option String
  multiplier_field : Option Int
  multiplier_value : Option Int

/-- Split a char list at every character satisfying `p`, keeping empty pieces
(the building block for Rust `split('*')` and `split_whitespace`). -/
def splitPred (p : Char → Bool) : List Char → List (List Char)
  | [] => [[]]
  | x :: xs =>
    if p x then [] :: splitPred p xs
    else
      match splitPred p xs with
      | t :: ts => (x :: t) :: ts
      | [] => [[x]]

/-- Split on a multi-character separator, fuelled so the recursion is structural;
`fuel` is instantiated with the length of the input, which always suffices. -/
def splitOnFuel (sep : List Char) : Nat → List Char → List Char → List (List Char)
  | _, [], acc => [acc.reverse]
  | 0, rest, acc => [acc.reverse ++ rest]
  | Nat.succ fuel, c :: rest, acc =>
    if List.isPrefixOf sep (c :: rest) then
      acc.reverse :: splitOnFuel sep fuel (List.drop (sep.length - 1) rest) []
    else
      splitOnFuel sep fuel rest (c :: acc)

/-- Rust `filter_string.split(" AND ")` (src/lib.rs line 59). -/
def splitAND (s : String) : List String :=
  (splitOnFuel " AND ".data s.data.length s.data []).map String.mk

/-- Rust `str::split('*')` (src/lib.rs lines 63 and 77). -/
def splitStar (s : String) : List String :=
  (splitPred (fun c => c = Char.ofNat 42) s.data).map String.mk

/-- Rust `char::is_whitespace`: the Unicode White_Space property, whose
codepoints are U+0009..U+000D, U+0020, U+0085, U+00A0, U+1680,
U+2000..U+200A, U+2028, U+2029, U+202F, U+205F and U+3000. -/
def isWhitespaceRust (c : Char) : Bool :=
  decide (9 ≤ c.toNat ∧ c.toNat ≤ 13) || c.toNat == 32 || c.toNat == 133 ||
    c.toNat == 160 || c.toNat == 5760 ||
    decide (8192 ≤ c.toNat ∧ c.toNat ≤ 8202) || c.toNat == 8232 ||
    c.toNat == 8233 || c.toNat == 8239 || c.toNat == 8287 || c.toNat == 12288

/-- Rust `filter_part.split_whitespace().collect()` (src/lib.rs line 61). -/
def tokens (s : String) : List String :=
  ((splitPred isWhitespaceRust s.data).filter (fun t => t ≠ [])).map String.mk

/-- Rust `str::trim_start_matches(c)`: drop every leading occurrence of `c`. -/
def trimStartMatches (c : Char) (s : String) : String :=
  String.mk (s.data.dropWhile (fun x => x = c))

/-- Rust `str::trim_matches(c)`: drop every leading and trailing occurrence of `c`. -/
def trimMatches (c : Char) (s : String) : String :=
  String.mk (((s.data.dropWhile (fun x => x = c)).reverse.dropWhile (fun x => x = c)).reverse)

/-- Rust `str::starts_with(c)` for a single character. -/
def startsWithChar (c : Char) (s : String) : Bool :=
  match s.data with
  | [] => false
  | x :: _ => x = c

/-- Value of a list of ASCII digits read in base 10. -/
def digitsToNat (l : List Char) : Nat :=
  List.foldl (fun acc c => acc * 10 + (c.toNat - 48)) 0 l

/-- Rust `str::parse::<i64>()`: optional sign, one or more ASCII digits, i64 range. -/
def parseI64 (s : String) : Option Int :=
  let p : Int × List Char :=
    match s.data with
    | '-' :: rest => (-1, rest)
    | '+' :: rest => (1, rest)
    | l => (1, l)
  if p.2 ≠ [] ∧ p.2.all Char.isDigit then
    let n : Int := p.1 * (digitsToNat p.2 : Int)
    if -(2 ^ 63) ≤ n ∧ n ≤ 2 ^ 63 - 1 then some n else none
  else none

/-- The quote-trimmed last `*`-part of the right operand token
(src/lib.rs lines 77-84: `value_parts[value_parts.len() - 1].trim_matches('\x27')`). -/
def rightRaw (p2 : String) : String :=
  let value_parts := splitStar p2
  trimMatches quoteChar (value_parts.getD (value_parts.length - 1) "")

/-- The clause built from the three tokens of a filter part
(src/lib.rs lines 63-109). -/
def mkClause (part0 op part2 : String) : Filter :=
  let field_parts := splitStar part0
  let multiplier_field : Option Int :=
    if field_parts.length = 2 then parseI64 (field_parts.getD 0 "") else none
  let field : Option String :=
    if field_parts.length = 1 ∨ multiplier_field.isSome then
      some (trimStartMatches '.' (field_parts.getD (field_parts.length - 1) ""))
    else none
  let value_parts := splitStar part2
  let multiplier_value : Option Int :=
    if value_parts.length = 2 then parseI64 (value_parts.getD 0 "") else none
  let value0 := rightRaw part2
  let value_field : Option String :=
    if startsWithChar '.' value0 then some (trimStartMatches '.' value0) else none
  let value : Option Value :=
    if value_field.isNone then
      match parseI64 value0 with
      | some n => some (Value.num n)
      | none => some (Value.str value0)
    else none
  ⟨field, op, value, value_field, multiplier_field, multiplier_value⟩

/-- The body of the closure mapped over filter parts in `parse`
(src/lib.rs lines 60-110). `none` models the panic of `parts[i]` when the
clause has fewer than three whitespace-separated tokens. -/
def parseClause (filter_part : String) : Option Filter :=
  let parts := tokens filter_part
  match parts.get? 0, parts.get? 1, parts.get? 2 with
  | some part0, some op, some part2 => some (mkClause part0 op part2)
  | _, _, _ => none

/-- Sequencing of per-clause parses: Rust's `.map(closure).collect()` where the
closure may panic; any panic propagates (`none`). -/
def mapOption (f : α → Option β) : List α → Option (List β)
  | [] => some []
  | x :: xs =>
    match f x, mapOption f xs with
    | some y, some ys => some (y :: ys)
    | _, _ => none

/-- `parse` (src/lib.rs lines 57-113). Outer `Option`: panic/no-panic; inner
`Option`: the Rust return type, always `Some(filters)` (line 112). -/
def parse (filter_string : String) : Option (Option (List Filter)) :=
  (mapOption parseClause (splitAND filter_string)).map some

/-- String-mode comparison on the operator (src/lib.rs lines 162-166). -/
def strCompare (op : String) (a b : String) : Bool :=
  if op = "=" then a == b
  else if op = "!=" then !(a == b)
  else false

/-- Numeric-mode comparison on the operator (src/lib.rs lines 186-194). -/
def numCompare (op : String) (a b : Int) : Bool :=
  if op = "=" then a == b
  else if op = "!=" then !(a == b)
  else if op = ">=" then decide (b ≤ a)
  else if op = ">" then decide (b < a)
  else if op = "<=" then decide (a ≤ b)
  else if op = "<" then decide (a < b)
  else false

/-- The string branch of the per-clause comparison (src/lib.rs lines 149-168). -/
def stringEval (v : Value) (filter : Filter) : Bool :=
  let f := filter.field.bind (fun field => Value.get v field)
  let f_str := f.bind Value.as_str
  let value_str :=
    if filter.value.isSome then filter.value.bind Value.as_str
    else (filter.value_field.bind (fun vf => Value.get v vf)).bind Value.as_str
  match f_str, value_str with
  | some a, some b => strCompare filter.operator a b
  | _, _ => false

/-- The numeric branch of the per-clause comparison (src/lib.rs lines 169-196). -/
def numericEval (v : Value) (filter : Filter) : Bool :=
  let f := filter.field.bind (fun field => Value.get v field)
  let value := filter.value_field.bind (fun vf => Value.get v vf)
  let fN : Option Int :=
    match filter.multiplier_field, f with
    | some mult, some val => (Value.as_i64 val).map (fun x => x * mult)
    | _, _ => f.bind Value.as_i64
  let valueN : Option Int :=
    match filter.multiplier_value, value with
    | some mult, some val => (Value.as_i64 val).map (fun x => x * mult)
    | _, _ =>
      Option.orElse (value.bind Value.as_i64) (fun _ => filter.value.bind Value.as_i64)
  match fN, valueN with
  | some a, some b => numCompare filter.operator a b
  | _, _ => false

/-- Whether an optional value is a JSON number (src/lib.rs line 141). -/
def isNumberVal : Option Value → Bool
  | some (Value.num _) => true
  | _ => false

/-- One iteration of the loop body of `apply` (src/lib.rs lines 138-197). -/
def applyClause (v : Value) (filter : Filter) : Bool :=
  let f := filter.field.bind (fun field => Value.get v field)
  let f_is_number := isNumberVal f
  if !f_is_number then stringEval v filter else numericEval v filter

/-- `apply` (src/lib.rs lines 137-206): conjunction with early `return false`. -/
def apply (v : Value) : List Filter → Bool
  | [] => true
  | filter :: rest => if applyClause v filter then apply v rest else false

/-- The resolved left value of a clause against a record (src/lib.rs line 140). -/
def leftVal (v : Value) (filter : Filter) : Option Value :=
  filter.field.bind (fun field => Value.get v field)

/-! ### Helper lemmas -/

theorem apply_eq_all (v : Value) (fs : List Filter) :
    apply v fs = fs.all (applyClause v) := by
  induction fs with
  | nil => rfl
  | cons c rest ih => cases hc : applyClause v c <;> simp [apply, hc, ih]

theorem apply_singleton (v : Value) (c : Filter) :
    apply v [c] = applyClause v c := by
  cases hc : applyClause v c <;> simp [apply, hc]

theorem applyClause_dispatch (v : Value) (c : Filter) :
    applyClause v c =
      if !(isNumberVal (leftVal v c)) then stringEval v c else numericEval v c := rfl

theorem strCompare_unsupported (op a b : String)
    (h1 : op ≠ "=") (h2 : op ≠ "!=") : strCompare op a b = false := by
  simp [strCompare, h1, h2]

theorem numCompare_unsupported (op : String) (a b : Int)
    (h : op ∉ (["=", "!=", ">=", ">", "<=", "<"] : List String)) :
    numCompare op a b = false := by
  simp only [List.mem_cons, List.not_mem_nil, or_false, not_or] at h
  obtain ⟨h1, h2, h3, h4, h5, h6⟩ := h
  simp [numCompare, h1, h2, h3, h4, h5, h6]

theorem stringEval_unsupported (v : Value) (c : Filter)
    (h1 : c.operator ≠ "=") (h2 : c.operator ≠ "!=") : stringEval v c = false := by
  simp only [stringEval]
  split
  · exact strCompare_unsupported _ _ _ h1 h2
  · rfl

theorem numericEval_unsupported (v : Value) (c : Filter)
    (h : c.operator ∉ (["=", "!=", ">=", ">", "<=", "<"] : List String)) :
    numericEval v c = false := by
  simp only [numericEval]
  split
  · exact numCompare_unsupported _ _ _ h
  · rfl

theorem applyClause_unsupported (v : Value) (c : Filter)
    (h : c.operator ∉ (["=", "!=", ">=", ">", "<=", "<"] : List String)) :
    applyClause v c = false := by
  have h1 : c.operator ≠ "=" := by intro he; exact h (by rw [he]; simp)
  have h2 : c.operator ≠ "!=" := by intro he; exact h (by rw [he]; simp)
  rw [applyClause_dispatch]
  cases hn : isNumberVal (leftVal v c)
  · exact stringEval_unsupported v c h1 h2
  · exact numericEval_unsupported v c h

theorem applyClause_left_none (v : Value) (c : Filter) (h : leftVal v c = none) :
    applyClause v c = false := by
  have hn : isNumberVal (leftVal v c) = false := by rw [h]; rfl
  rw [applyClause_dispatch, hn]
  have h' : (c.field.bind fun field => Value.get v field) = none := h
  simp [stringEval, h']

theorem applyClause_str_numliteral (v : Value) (c : Filter) (t : String) (n : Int)
    (hf : leftVal v c = some (Value.str t)) (hv : c.value = some (Value.num n)) :
    applyClause v c = false := by
  have hn : isNumberVal (leftVal v c) = false := by rw [hf]; rfl
  rw [applyClause_dispatch, hn]
  have h' : (c.field.bind fun field => Value.get v field) = some (Value.str t) := hf
  simp [stringEval, h', hv, Value.as_str]

theorem isNumberVal_spec (o : Option Value) (h : isNumberVal o = true) :
    ∃ n, o = some (Value.num n) := by
  cases o with
  | none => exact absurd h (by simp [isNumberVal])
  | some val =>
    cases val
    case num n => exact ⟨n, rfl⟩
    all_goals exact absurd h (by simp [isNumberVal])

theorem stringEval_right_not_str (v : Value) (c : Filter)
    (h : (if c.value.isSome then c.value.bind Value.as_str
          else (c.value_field.bind fun vf => Value.get v vf).bind Value.as_str) = none) :
    stringEval v c = false := by
  cases hf : (c.field.bind fun field => Value.get v field).bind Value.as_str <;>
    simp [stringEval, hf, h]

theorem numericEval_right_unresolved (v : Value) (c : Filter) (k : Int)
    (hl : (c.field.bind fun field => Value.get v field) = some (Value.num k))
    (hlit : c.value.bind Value.as_i64 = none)
    (hlook : (c.value_field.bind fun vf => Value.get v vf).bind Value.as_i64 = none) :
    numericEval v c = false := by
  cases hlk : (c.value_field.bind fun vf => Value.get v vf) with
  | none =>
    cases hm : c.multiplier_value <;> cases hm2 : c.multiplier_field <;>
      simp only [numericEval, hl, hlk, hm, hm2, hlit, Option.orElse] <;>
      simp [Value.as_i64]
  | some val =>
    have hv64 : Value.as_i64 val = none := by rw [hlk] at hlook; simpa using hlook
    cases val <;> first
      | (simp only [Value.as_i64] at hv64; exact Option.noConfusion hv64)
      | cases hm : c.multiplier_value <;> cases hm2 : c.multiplier_field <;>
          simp only [numericEval, hl, hlk, hm, hm2, hlit, Option.orElse] <;>
          simp [Value.as_i64]

theorem mkClause_operator (p0 op p2 : String) : (mkClause p0 op p2).operator = op := rfl

theorem mkClause_value_xor (p0 op p2 : String) :
    (mkClause p0 op p2).value.isSome = !(mkClause p0 op p2).value_field.isSome ∧
    (mkClause p0 op p2).value_field.isSome = startsWithChar '.' (rightRaw p2) := by
  by_cases hd : startsWithChar '.' (rightRaw p2) = true
  · simp [mkClause, hd]
  · simp only [Bool.not_eq_true] at hd
    cases hpi : parseI64 (rightRaw p2) <;> simp [mkClause, hd, hpi]

theorem mkClause_badmult (p0 op p2 : String)
    (hlen : (splitStar p0).length = 2)
    (hmul : parseI64 ((splitStar p0).getD 0 "") = none) :
    (mkClause p0 op p2).multiplier_field = none ∧ (mkClause p0 op p2).field = none := by
  simp only [mkClause, hlen, hmul]
  simp

theorem parseClause_destruct (s : String) (cl : Filter) (h : parseClause s = some cl) :
    ∃ p0 op p2, (tokens s).get? 0 = some p0 ∧ (tokens s).get? 1 = some op ∧
      (tokens s).get? 2 = some p2 ∧ cl = mkClause p0 op p2 := by
  cases h0 : (tokens s).get? 0 <;> cases h1 : (tokens s).get? 1 <;>
    cases h2 : (tokens s).get? 2 <;> simp only [parseClause, h0, h1, h2] at h <;>
    first
      | exact Option.noConfusion h
      | exact ⟨_, _, _, rfl, rfl, rfl, (Option.some_inj.mp h).symm⟩

theorem parseClause_isSome_of_tokens (p : String) (h : 3 ≤ (tokens p).length) :
    (parseClause p).isSome = true := by
  have h0 : (tokens p).get? 0 = some ((tokens p).get ⟨0, by omega⟩) :=
    List.get?_eq_get (by omega)
  have h1 : (tokens p).get? 1 = some ((tokens p).get ⟨1, by omega⟩) :=
    List.get?_eq_get (by omega)
  have h2 : (tokens p).get? 2 = some ((tokens p).get ⟨2, by omega⟩) :=
    List.get?_eq_get (by omega)
  simp only [parseClause, h0, h1, h2]
  rfl

theorem mapOption_some_of_all {α β : Type} (f : α → Option β) (xs : List α)
    (h : ∀ x ∈ xs, (f x).isSome = true) : ∃ l, mapOption f xs = some l := by
  induction xs with
  | nil => exact ⟨[], rfl⟩
  | cons x rest ih =>
    obtain ⟨y, hy⟩ := Option.isSome_iff_exists.mp (h x (List.mem_cons_self x rest))
    obtain ⟨l, hl⟩ := ih (fun a ha => h a (List.mem_cons_of_mem x ha))
    exact ⟨y :: l, by simp [mapOption, hy, hl]⟩

theorem mapOption_spec {α β : Type} (f : α → Option β) (xs : List α) (l : List β)
    (h : mapOption f xs = some l) :
    l.length = xs.length ∧
      ∀ i (hi : i < xs.length) (hl : i < l.length),
        f (xs.get ⟨i, hi⟩) = some (l.get ⟨i, hl⟩) := by
  induction xs generalizing l with
  | nil =>
    have h' : (some [] : Option (List β)) = some l := h
    obtain rfl := (Option.some_inj.mp h').symm
    exact ⟨rfl, fun i hi _ => absurd hi (by simp)⟩
  | cons x rest ih =>
    unfold mapOption at h
    split at h
    · rename_i y ys hx hr
      obtain rfl := (Option.some_inj.mp h).symm
      obtain ⟨hlen, hget⟩ := ih _ hr
      refine ⟨by simp [hlen], fun i hi hl => ?_⟩
      cases i with
      | zero => simpa using hx
      | succ j => simpa using hget j (by simpa using hi) (by simpa using hl)
    · exact Option.noConfusion h

/-! ### Claim theorems -/

/-- Claim C1, counterexample: for the record `{"a": 15}` and the clause parsed from
`a >= 2*10`, the claim predicts a right-hand side of `2 * 10 = 20` and result
`false`; the code leaves the literal `10` unscaled and `apply` returns `true`,
because the multiplier branch requires the `value_field` lookup to be present. -/
theorem claim1_counterexample :
    parse "a >= 2*10" =
        some (some [⟨some "a", ">=", some (Value.num 10), none, none, some 2⟩]) ∧
      apply (Value.obj [("a", Value.num 15)])
        [⟨some "a", ">=", some (Value.num 10), none, none, some 2⟩] = true :=
  ⟨rfl, rfl⟩

/-- Claim C1 (amended): in numeric mode, when a clause has no `value_field`, a
literal integer value, and a `value_multiplier`, the multiplier is ignored: the
left value is compared against the bare literal. -/
theorem claim1_literal_multiplier_ignored (v : Value) (c : Filter) (n lit mult : Int)
    (hf : leftVal v c = some (Value.num n))
    (hvf : c.value_field = none)
    (hval : c.value = some (Value.num lit))
    (hmv : c.multiplier_value = some mult)
    (hmf : c.multiplier_field = none) :
    applyClause v c = numCompare c.operator n lit := by
  have hn : isNumberVal (leftVal v c) = true := by rw [hf]; rfl
  rw [applyClause_dispatch, hn]
  show numericEval v c = numCompare c.operator n lit
  have h' : (c.field.bind fun field => Value.get v field) = some (Value.num n) := hf
  simp [numericEval, h', hvf, hval, hmv, hmf, Value.as_i64, Option.orElse]

/-- Claim C1, witness of the amended theorem at the record `{"a": 15}` and the
clause parsed from `a >= 2*10`. -/
theorem claim1_witness :
    applyClause (Value.obj [("a", Value.num 15)])
        ⟨some "a", ">=", some (Value.num 10), none, none, some 2⟩ =
      numCompare ">=" 15 10 :=
  claim1_literal_multiplier_ignored (Value.obj [("a", Value.num 15)])
    ⟨some "a", ">=", some (Value.num 10), none, none, some 2⟩ 15 10 2 rfl rfl rfl rfl rfl

/-- Claim C2, counterexample: on the input `"abc"` the clause has a single
whitespace-separated token, so `parts[1]` is out of bounds (modelled by the
outer `none`): `parse` panics instead of returning a clause list. -/
theorem claim2_counterexample : parse "abc" = none := rfl

/-- Claim C2 (amended): `parse` returns a clause list (never the `None` arm of
its return type) on every input whose ` AND `-separated parts each contain at
least three whitespace-separated tokens; on a part with fewer tokens it panics
on an out-of-bounds index. -/
theorem claim2_parse_wellformed (s : String)
    (h : ∀ p ∈ splitAND s, 3 ≤ (tokens p).length) :
    ∃ l, parse s = some (some l) := by
  obtain ⟨l, hl⟩ := mapOption_some_of_all parseClause (splitAND s)
    (fun p hp => parseClause_isSome_of_tokens p (h p hp))
  exact ⟨l, by rw [parse, hl]; rfl⟩

/-- Claim C2, witness of the amended theorem at the well-formed input `a = 1`. -/
theorem claim2_witness : ∃ l, parse "a = 1" = some (some l) :=
  claim2_parse_wellformed "a = 1" (by decide)

/-- Claim C3, counterexample: for the left operand `x*a`, whose prefix `x` does
not parse as an integer, the parser yields `field = none`, not `field = some "a"`
as the claim states (the multiplier is indeed absent). -/
theorem claim3_counterexample :
    parse "x*a = 5" = some (some [⟨none, "=", some (Value.num 5), none, none, none⟩]) ∧
      (⟨none, "=", some (Value.num 5), none, none, none⟩ : Filter).field ≠ some "a" :=
  ⟨rfl, by decide⟩

/-- Claim C3 (amended): when the left operand has the form `P*N` and `P` does not
parse as an integer, the clause silently gets no multiplier, and its `field` is
also absent (`none`) rather than `N`. -/
theorem claim3_badmult (s : String) (cl : Filter) (p0 : String)
    (hp : parseClause s = some cl)
    (h0 : (tokens s).get? 0 = some p0)
    (hlen : (splitStar p0).length = 2)
    (hmul : parseI64 ((splitStar p0).getD 0 "") = none) :
    cl.multiplier_field = none ∧ cl.field = none := by
  obtain ⟨q0, oq, q2, hq0, hq1, hq2, rfl⟩ := parseClause_destruct s cl hp
  have hq : q0 = p0 := by rw [h0] at hq0; exact (Option.some_inj.mp hq0).symm
  subst hq
  exact mkClause_badmult q0 oq q2 hlen hmul

/-- Claim C3, witness of the amended theorem at the input `x*a = 5`. -/
theorem claim3_witness :
    (⟨none, "=", some (Value.num 5), none, none, none⟩ : Filter).multiplier_field = none ∧
      (⟨none, "=", some (Value.num 5), none, none, none⟩ : Filter).field = none :=
  claim3_badmult "x*a = 5" ⟨none, "=", some (Value.num 5), none, none, none⟩ "x*a"
    rfl rfl rfl rfl

/-- Claim C4: `apply` is the conjunction of per-clause evaluations: it is `true`
iff every clause succeeds, it is `false` whenever some clause fails (whatever
the later clauses say), and on the empty clause list it is `true`. -/
theorem claim4_conjunction (v : Value) (fs : List Filter) :
    (apply v fs = true ↔ ∀ c ∈ fs, applyClause v c = true) ∧
    (∀ (pre post : List Filter) (c : Filter), fs = pre ++ c :: post →
      applyClause v c = false → apply v fs = false) ∧
    apply v ([] : List Filter) = true := by
  refine ⟨?_, ?_, rfl⟩
  · rw [apply_eq_all]; simp
  · rintro pre post c rfl hc
    rw [apply_eq_all]
    simp [hc]

/-- Claim C4, witness: the first clause fails on the record, so `apply` is
`false` regardless of the second (passing) clause. -/
theorem claim4_witness :
    apply (Value.obj [("a", Value.num 10), ("b", Value.str "hi")])
      [⟨some "a", ">", some (Value.num 100), none, none, none⟩,
       ⟨some "b", "=", some (Value.str "hi"), none, none, none⟩] = false :=
  (claim4_conjunction (Value.obj [("a", Value.num 10), ("b", Value.str "hi")])
      [⟨some "a", ">", some (Value.num 100), none, none, none⟩,
       ⟨some "b", "=", some (Value.str "hi"), none, none, none⟩]).2.1
    [] [⟨some "b", "=", some (Value.str "hi"), none, none, none⟩]
    ⟨some "a", ">", some (Value.num 100), none, none, none⟩ rfl (by decide)

/-- Claim C5: the comparison mode is decided only by the type of the resolved
left value — numeric mode when it is a JSON number, string mode otherwise; in
string mode any operator other than `=` and `!=` makes the clause fail. -/
theorem claim5_mode_dispatch (v : Value) (c : Filter) :
    (isNumberVal (leftVal v c) = true → applyClause v c = numericEval v c) ∧
    (isNumberVal (leftVal v c) = false → applyClause v c = stringEval v c) ∧
    (isNumberVal (leftVal v c) = false → c.operator ≠ "=" → c.operator ≠ "!=" →
      applyClause v c = false) := by
  refine ⟨fun h => ?_, fun h => ?_, fun h h1 h2 => ?_⟩
  · rw [applyClause_dispatch, h]; rfl
  · rw [applyClause_dispatch, h]; rfl
  · rw [applyClause_dispatch, h]
    exact stringEval_unsupported v c h1 h2

/-- Claim C5, witness: both sides resolve to the equal string `"x"`, but the
operator `>=` still makes the clause fail in string mode. -/
theorem claim5_witness :
    applyClause (Value.obj [("a", Value.str "x")])
      ⟨some "a", ">=", some (Value.str "x"), none, none, none⟩ = false :=
  (claim5_mode_dispatch (Value.obj [("a", Value.str "x")])
      ⟨some "a", ">=", some (Value.str "x"), none, none, none⟩).2.2 rfl
    (by decide) (by decide)

/-- Claim C6: an unsupported operator is accepted by the parser (the middle
token is stored verbatim in the clause) and always fails at evaluation: `apply`
on the singleton list of such a clause is `false` for every record. -/
theorem claim6_unsupported_operator (v : Value) (c : Filter) (s : String) (cl : Filter)
    (hp : parseClause s = some cl)
    (hop : c.operator ∉ (["=", "!=", ">=", ">", "<=", "<"] : List String)) :
    cl.operator = (tokens s).getD 1 "" ∧ apply v [c] = false := by
  obtain ⟨p0, oq, p2, h0, h1, h2, rfl⟩ := parseClause_destruct s cl hp
  constructor
  · rw [mkClause_operator]
    have hg : (tokens s).getD 1 "" = ((tokens s).get? 1).getD "" := rfl
    rw [hg, h1]; rfl
  · rw [apply_singleton]
    exact applyClause_unsupported v c hop

/-- Claim C6, witness at the clause parsed from `a ~ 5` (operator `~`). -/
theorem claim6_witness :
    (⟨some "a", "~", some (Value.num 5), none, none, none⟩ : Filter).operator =
        (tokens "a ~ 5").getD 1 "" ∧
      apply (Value.obj [("a", Value.num 5)])
        [⟨some "a", "~", some (Value.num 5), none, none, none⟩] = false :=
  claim6_unsupported_operator (Value.obj [("a", Value.num 5)])
    ⟨some "a", "~", some (Value.num 5), none, none, none⟩ "a ~ 5"
    ⟨some "a", "~", some (Value.num 5), none, none, none⟩ rfl (by decide)

/-- Claim C7: `apply` never raises on bad data — every bad-data scenario
resolves to a failed comparison, never an exception. In order: a missing field
fails; a missing comparison value (no literal and the `value_field` lookup
absent) fails in either mode; a type mismatch fails in every direction (string
field vs numeric literal, numeric field vs string literal, numeric field vs
string `value_field` lookup, string field vs numeric `value_field` lookup); a
failed clause makes `apply` return `false` on any list containing it; and for
the record `{"a": "text"}` and the clause `a > 5`, `apply` returns `false`. -/
theorem claim7_fail_soft (v : Value) (c : Filter) :
    (leftVal v c = none → applyClause v c = false) ∧
    (c.value = none → c.value_field.bind (fun vf => Value.get v vf) = none →
      applyClause v c = false) ∧
    (∀ (t : String) (n : Int), leftVal v c = some (Value.str t) →
      c.value = some (Value.num n) → applyClause v c = false) ∧
    (∀ (n : Int) (t : String), leftVal v c = some (Value.num n) →
      c.value = some (Value.str t) →
      c.value_field.bind (fun vf => Value.get v vf) = none →
      applyClause v c = false) ∧
    (∀ (n : Int) (t : String), leftVal v c = some (Value.num n) → c.value = none →
      c.value_field.bind (fun vf => Value.get v vf) = some (Value.str t) →
      applyClause v c = false) ∧
    (∀ (t : String) (m : Int), leftVal v c = some (Value.str t) → c.value = none →
      c.value_field.bind (fun vf => Value.get v vf) = some (Value.num m) →
      applyClause v c = false) ∧
    (∀ (pre post : List Filter), applyClause v c = false →
      apply v (pre ++ c :: post) = false) ∧
    apply (Value.obj [("a", Value.str "text")])
      [⟨some "a", ">", some (Value.num 5), none, none, none⟩] = false := by
  refine ⟨applyClause_left_none v c, fun hv hvf => ?_,
    fun t n hf hval => applyClause_str_numliteral v c t n hf hval,
    fun n t hf hval hvf => ?_, fun n t hf hval hvf => ?_, fun t m hf hval hvf => ?_,
    fun pre post hc => ?_, rfl⟩
  · cases hn : isNumberVal (leftVal v c) with
    | false =>
      rw [applyClause_dispatch, hn]
      exact stringEval_right_not_str v c (by simp [hv, hvf])
    | true =>
      obtain ⟨k, hk⟩ := isNumberVal_spec _ hn
      rw [applyClause_dispatch, hn]
      exact numericEval_right_unresolved v c k hk (by simp [hv]) (by simp [hvf])
  · have hn : isNumberVal (leftVal v c) = true := by rw [hf]; rfl
    rw [applyClause_dispatch, hn]
    exact numericEval_right_unresolved v c n hf (by simp [hval, Value.as_i64])
      (by simp [hvf])
  · have hn : isNumberVal (leftVal v c) = true := by rw [hf]; rfl
    rw [applyClause_dispatch, hn]
    exact numericEval_right_unresolved v c n hf (by simp [hval])
      (by simp [hvf, Value.as_i64])
  · have hn : isNumberVal (leftVal v c) = false := by rw [hf]; rfl
    rw [applyClause_dispatch, hn]
    exact stringEval_right_not_str v c (by simp [hval, hvf, Value.as_str])
  · rw [apply_eq_all]
    simp [hc]

/-- Claim C7, witness: a comparison value missing from the record (the clause
has no literal and its `value_field` is absent from the record) makes the
clause fail. -/
theorem claim7_witness :
    applyClause (Value.obj [("a", Value.str "x")])
      ⟨some "a", "=", none, some "b", none, none⟩ = false :=
  (claim7_fail_soft (Value.obj [("a", Value.str "x")])
    ⟨some "a", "=", none, some "b", none, none⟩).2.1 rfl rfl

/-- Claim C8: every clause produced by the parser has exactly one of `value` and
`value_field` set, and `value_field` is set exactly when the quote-trimmed right
token starts with a dot. -/
theorem claim8_value_exclusivity (s : String) (cl : Filter) (hp : parseClause s = some cl) :
    cl.value.isSome = !cl.value_field.isSome ∧
    cl.value_field.isSome = startsWithChar '.' (rightRaw ((tokens s).getD 2 "")) := by
  obtain ⟨p0, oq, p2, h0, h1, h2, rfl⟩ := parseClause_destruct s cl hp
  have hg : (tokens s).getD 2 "" = p2 := by
    have he : (tokens s).getD 2 "" = ((tokens s).get? 2).getD "" := rfl
    rw [he, h2]; rfl
  rw [hg]
  exact mkClause_value_xor p0 oq p2

/-- Claim C8, witness at the input `a = .b` (right side is a field reference). -/
theorem claim8_witness :
    (⟨some "a", "=", none, some "b", none, none⟩ : Filter).value.isSome =
        !(⟨some "a", "=", none, some "b", none, none⟩ : Filter).value_field.isSome ∧
      (⟨some "a", "=", none, some "b", none, none⟩ : Filter).value_field.isSome =
        startsWithChar '.' (rightRaw ((tokens "a = .b").getD 2 "")) :=
  claim8_value_exclusivity "a = .b" ⟨some "a", "=", none, some "b", none, none⟩ rfl

/-- Claim C9: whenever `parse` returns (does not panic), its result is `Some` of
a clause list with one clause per ` AND `-separated part, in source order; the
`None` arm of the return type is unreachable. -/
theorem claim9_none_unreachable (s : String) (r : Option (List Filter))
    (h : parse s = some r) :
    ∃ l, r = some l ∧ l.length = (splitAND s).length ∧
      ∀ i (hi : i < (splitAND s).length) (hl : i < l.length),
        parseClause ((splitAND s).get ⟨i, hi⟩) = some (l.get ⟨i, hl⟩) := by
  unfold parse at h
  cases hm : mapOption parseClause (splitAND s) <;> rw [hm] at h
  · exact Option.noConfusion h
  · rename_i l
    obtain rfl := (Option.some_inj.mp h).symm
    obtain ⟨hlen, hget⟩ := mapOption_spec parseClause (splitAND s) l hm
    exact ⟨l, rfl, hlen, hget⟩

/-- Claim C9, witness at the input `a = 1`. -/
theorem claim9_witness :
    ∃ l, (some [(⟨some "a", "=", some (Value.num 1), none, none, none⟩ : Filter)] :
          Option (List Filter)) = some l ∧
      l.length = (splitAND "a = 1").length ∧
      ∀ i (hi : i < (splitAND "a = 1").length) (hl : i < l.length),
        parseClause ((splitAND "a = 1").get ⟨i, hi⟩) = some (l.get ⟨i, hl⟩) :=
  claim9_none_unreachable "a = 1"
    (some [⟨some "a", "=", some (Value.num 1), none, none, none⟩]) rfl

/-- Claim C10: a clause whose `field` is absent can never succeed: its left value
resolves to missing, it falls into string mode and fails, so `apply` on the
singleton list of that clause is `false` for every record. -/
theorem claim10_absent_field (v : Value) (c : Filter) (h : c.field = none) :
    apply v [c] = false := by
  rw [apply_singleton]
  exact applyClause_left_none v c (by simp [leftVal, h])

/-- Claim C10, witness at a record and a field-less clause. -/
theorem claim10_witness :
    apply (Value.obj [("x", Value.num 1)])
      [⟨none, ">", some (Value.num 5), none, none, none⟩] = false :=
  claim10_absent_field (Value.obj [("x", Value.num 1)])
    ⟨none, ">", some (Value.num 5), none, none, none⟩ rfl

end JsonFilter
